import Mathlib

/-!
Verification development for the Companio goal/task/reminder application.

The repository ships the React frontend (`ProductivityMotivation.tsx`,
`App.tsx`) together with a README documenting the FastAPI backend.  The
backend modules (`task_decomposer.py`, `main.py`, `reminder_generator.py`)
are not part of the available sources, so the task generator, the
dependency/lock evaluator, the daily check-in endpoint and the reminder
status endpoint are modelled from the specification; the frontend component
logic is embedded directly from `ProductivityMotivation.tsx`.
-/

namespace Companio

/-! ## Data model -/

/-- Goal intensity enum: Light/Normal/Aggressive (spec section 3). -/
inductive Intensity
  | Light
  | Normal
  | Aggressive
deriving DecidableEq, Repr

/-- Tasks-per-week density derived from intensity: 2/3/4 (spec section 3). -/
def tasksPerWeek : Intensity → Nat
  | .Light => 2
  | .Normal => 3
  | .Aggressive => 4

/-- Parse the JSON intensity string into the enum; anything else is invalid. -/
def parseIntensity : String → Option Intensity
  | "Light" => some .Light
  | "Normal" => some .Normal
  | "Aggressive" => some .Aggressive
  | _ => none

/-- Task status enum: NotStarted/InProgress/Completed (spec section 3). -/
inductive TaskStatus
  | NotStarted
  | InProgress
  | Completed
deriving DecidableEq, Repr

/-- The goal fields that the task generator consumes: title (topic is
inferred from it), duration in weeks (an integer from JSON, so possibly
non-positive), and the intensity string. -/
structure GoalIn where
  title : String
  duration_weeks : Int
  intensity : String
deriving DecidableEq, Repr

/-- A task record.  `order` is the position within and across weeks and in
this arena-style model doubles as the task identifier referenced by
`dependencies` (spec section 9 design note). -/
structure Task where
  week_number : Nat
  title : String
  description : String
  status : TaskStatus
  order : Nat
  dependencies : List Nat
deriving DecidableEq, Repr

/-! ## Task generator (modelled from the spec) -/

/-- Modelled from the spec: the generic template used as fallback for goal
titles matching no topic in the fixed topic table (`task_decomposer.py` is
not in the available sources). -/
def genericTemplate : List String :=
  ["Research fundamentals", "Practice basics", "Build a mini project", "Review and refine"]

/-- Modelled from the spec: the fixed topic table keyed by topic keywords
(README lists React, Python, JavaScript, Data Structures among the
supported topics; `task_decomposer.py` is not in the available sources). -/
def topicTable : List (String × List String) :=
  [("react", ["JSX Syntax", "Components and Props", "State and Hooks", "Routing"]),
   ("python", ["Python Basics", "Functions and Modules", "OOP in Python", "Standard Library"]),
   ("javascript", ["JS Fundamentals", "DOM Manipulation", "Async JavaScript", "ES6 Features"]),
   ("data structures", ["Arrays and Lists", "Stacks and Queues", "Trees", "Graphs"])]

/-- ASCII lowercasing of one character (`str.lower()` on the title). -/
def lowerChar (c : Char) : Char :=
  if 65 ≤ c.toNat ∧ c.toNat ≤ 90 then Char.ofNat (c.toNat + 32) else c

/-- Does `key` occur as a prefix of `l`? -/
def startsWithL : List Char → List Char → Bool
  | [], _ => true
  | _ :: _, [] => false
  | a :: as, b :: bs => a == b && startsWithL as bs

/-- Does `key` occur as a contiguous sublist of `l`? -/
def containsL (key : List Char) : List Char → Bool
  | [] => key.isEmpty
  | b :: bs => startsWithL key (b :: bs) || containsL key bs

/-- A topic key matches a title when the key occurs in the lowercased
title (`key in title.lower()`). -/
def titleMatches (key title : String) : Bool :=
  containsL key.data (title.data.map lowerChar)

/-- Look the goal title up in the fixed topic table. -/
def lookupTopic (title : String) : Option (List String) :=
  (topicTable.find? (fun p => titleMatches p.1 title)).map Prod.snd

/-- The template used for a title: the matched topic template, or the
generic fallback for unknown topics. -/
def findTemplate (title : String) : List String :=
  (lookupTopic title).getD genericTemplate

/-- The `k`-th generated task for a goal spanning `wn` weeks using template
`tmpl`: `order` is the running index `k`, the task is dealt round-robin
into week `k % wn + 1`, its title is drawn from the template in order
(cycling), and explicit dependencies start out empty. -/
def mkTask (tmpl : List String) (wn k : Nat) : Task :=
  { week_number := k % wn + 1
    title := (tmpl.get? (k % tmpl.length)).getD "Task"
    description := "Work on " ++ (tmpl.get? (k % tmpl.length)).getD "Task"
    status := .NotStarted
    order := k
    dependencies := [] }

/-- The full generated sequence: `wn * tpw` tasks in template order. -/
def mkTaskList (tmpl : List String) (wn tpw : Nat) : List Task :=
  (List.range (wn * tpw)).map (mkTask tmpl wn)

/-- Modelled from the spec: the task generator of `task_decomposer.py`
(not in the available sources).  Given a goal it fails only on invalid
duration (≤ 0) or invalid intensity, and otherwise produces
`duration_weeks * tasksPerWeek intensity` tasks from the topic template
inferred from the title, with strictly increasing 0-based orders and
round-robin week assignment. -/
def generateTasks (g : GoalIn) : Except String (List Task) :=
  if g.duration_weeks ≤ 0 then
    .error "Invalid duration: duration_weeks must be positive"
  else
    match parseIntensity g.intensity with
    | none => .error "Invalid intensity"
    | some i => .ok (mkTaskList (findTemplate g.title) g.duration_weeks.toNat (tasksPerWeek i))

/-! ## Dependency/lock evaluator (modelled from the spec) -/

/-- Modelled from the spec: the effective dependency set of a task (the
lock evaluator is part of `task_decomposer.py`, not in the available
sources).  Explicit dependencies win when present; otherwise a task
depends implicitly on all tasks in the previous `order` position within
the same goal (linear chain), and the task at order 0 depends on nothing. -/
def effectiveDeps (tasks : List Task) (t : Task) : List Task :=
  if t.dependencies.isEmpty then
    tasks.filter (fun u => u.order + 1 = t.order)
  else
    tasks.filter (fun u => u.order ∈ t.dependencies)

/-- Modelled from the spec: a task is locked iff some task in its
(effective) dependency set is not Completed; recomputed on every read. -/
def isLocked (tasks : List Task) (t : Task) : Bool :=
  (effectiveDeps tasks t).any (fun u => u.status ≠ TaskStatus.Completed)

/-! ## Task mutation operations (modelled from the spec) -/

/-- The per-task mutations the owning user can perform after generation
(spec section 3: individually mutable — edit, reorder, move week, delete).
`reorder` carries old-order/new-order pairs from the bulk reorder
endpoint; `moveWeek` carries the target week. -/
inductive TaskOp
  | edit (o : Nat) (title descr : String) (st : TaskStatus)
  | reorder (pairs : List (Nat × Nat))
  | moveWeek (o : Nat) (week : Nat)
  | delete (o : Nat)

/-- Modelled from the spec: apply one mutation to the task list of a goal
spanning `wn` weeks (the task endpoints of `main.py` are not in the
available sources).  A week move is validated against 1..duration_weeks —
spec section 3 fixes `week_number (1..duration_weeks)` — and is a no-op on
an out-of-range target; edits and reorders never touch `week_number`. -/
def applyTaskOp (wn : Nat) (ts : List Task) : TaskOp → List Task
  | .edit o title descr st =>
      ts.map (fun t => if t.order = o then
        { t with title := title, description := descr, status := st } else t)
  | .reorder pairs =>
      ts.map (fun t => match pairs.lookup t.order with
        | some o => { t with order := o }
        | none => t)
  | .moveWeek o week =>
      if 1 ≤ week ∧ week ≤ wn then
        ts.map (fun t => if t.order = o then { t with week_number := week } else t)
      else ts
  | .delete o => ts.filter (fun t => t.order ≠ o)

/-! ## Reminder lifecycle (backend modelled from the spec) -/

/-- Reminder status enum (spec section 3). -/
inductive RStatus
  | pending
  | delivered
  | seen
  | dismissed
deriving DecidableEq, Repr

/-- A reminder row.  `day` abstracts the calendar day of the row (used for
the once-per-day check-in guard); `scheduled_time` is an abstract instant
comparable with the current time. -/
structure Reminder where
  id : Nat
  user_id : Nat
  reminder_type : String
  title : String
  message : String
  motivation_level : String
  scheduled_time : Nat
  status : RStatus
  day : Nat
deriving DecidableEq, Repr

/-- Modelled from the spec: the status-update endpoint enforcing the
one-directional lifecycle pending → delivered → seen, or → dismissed from
either pending or delivered (`main.py` is not in the available sources).
Re-asserting a terminal state succeeds as a no-op — dismissing twice
yields the same terminal state, no error — while any transition out of
seen or dismissed is rejected. -/
def updateReminderStatus (cur req : RStatus) : Except String RStatus :=
  match cur, req with
  | .pending, .delivered => .ok .delivered
  | .pending, .seen => .ok .seen
  | .pending, .dismissed => .ok .dismissed
  | .delivered, .seen => .ok .seen
  | .delivered, .dismissed => .ok .dismissed
  | .seen, .seen => .ok .seen
  | .dismissed, .dismissed => .ok .dismissed
  | _, _ => .error "Invalid status transition"

/-- The events that can touch one reminder row: lazy delivery on a fetch
(when `scheduled_time` has passed and the row is still pending), or a
requested status update through the endpoint (a rejected request leaves
the row unchanged). -/
inductive ROp
  | deliverFetch (now : Nat)
  | reqStatus (req : RStatus)

/-- Modelled from the spec: one step of a reminder row under an event. -/
def stepReminder (r : Reminder) : ROp → Reminder
  | .deliverFetch now =>
      if r.status = .pending ∧ r.scheduled_time ≤ now then
        { r with status := .delivered }
      else r
  | .reqStatus req =>
      match updateReminderStatus r.status req with
      | .ok st => { r with status := st }
      | .error _ => r

/-- The server-side reminder store: the rows plus the id counter. -/
structure ServerState where
  reminders : List Reminder
  nextId : Nat
deriving DecidableEq, Repr

/-- The daily check-in row created for a user on a given day. -/
def mkDailyCheckin (user day idv : Nat) : Reminder :=
  { id := idv
    user_id := user
    reminder_type := "daily_checkin"
    title := "Daily Check-In"
    message := "How is your day going? Take a moment to review your goals."
    motivation_level := "positive"
    scheduled_time := 0
    status := .pending
    day := day }

/-- Does the store already hold a daily check-in for this user and day? -/
def hasCheckinFor (user day : Nat) (rs : List Reminder) : Bool :=
  rs.any (fun r => r.user_id = user ∧ r.reminder_type = "daily_checkin" ∧ r.day = day)

/-- Modelled from the spec: POST /api/productivity/daily-checkin
(`main.py` is not in the available sources).  Idempotent per calendar day
per user: a second request on the same day fails with an
already-generated conflict and leaves the store untouched. -/
def dailyCheckin (user day : Nat) (s : ServerState) : Except String Unit × ServerState :=
  if hasCheckinFor user day s.reminders then
    (.error "Daily check-in already generated for today", s)
  else
    (.ok (), { reminders := mkDailyCheckin user day s.nextId :: s.reminders
               nextId := s.nextId + 1 })

/-! ## Frontend component (embedded from ProductivityMotivation.tsx) -/

/-- The component state of `ProductivityMotivation`: the `reminders`
array and the `loading` flag (`ProductivityMotivation.tsx`, lines 19-20). -/
structure ComponentState where
  reminders : List Reminder
  loading : Bool
deriving DecidableEq, Repr

/-- The initial component state: `useState<Reminder[]>([])` and
`useState(true)`. -/
def initialComponentState : ComponentState :=
  { reminders := [], loading := true }

/-- The filter of `fetchReminders` (lines 56-58): only pending and
delivered reminders are shown, dismissed and seen ones are hidden. -/
def activeFilter (rs : List Reminder) : List Reminder :=
  rs.filter (fun r => r.status = .pending ∨ r.status = .delivered)

/-- Embeds `fetchReminders` (lines 51-65): replace the list with the
filtered server response and clear `loading`. -/
def fetchReminders (server : List Reminder) (s : ComponentState) : ComponentState :=
  { s with reminders := activeFilter server, loading := false }

/-- Embeds `markReminderAsSeen` (lines 120-132): PATCH status seen on the
server, then remove the reminder from the list immediately. -/
def markReminderAsSeen (rid : Nat) (s : ComponentState) : ComponentState :=
  { s with reminders := s.reminders.filter (fun r => r.id ≠ rid) }

/-- Embeds `dismissReminder` (lines 134-146): PATCH status dismissed on
the server, then remove the reminder from the list immediately. -/
def dismissReminder (rid : Nat) (s : ComponentState) : ComponentState :=
  { s with reminders := s.reminders.filter (fun r => r.id ≠ rid) }

/-- The component operations that touch the reminders list.  The
generate-daily-check-in, generate-reminders and clear-all handlers all end
by calling `fetchReminders`, so their effect on the list is a `fetch`. -/
inductive CompOp
  | fetch (server : List Reminder)
  | markSeen (rid : Nat)
  | dismiss (rid : Nat)

/-- One step of the component state under a component operation. -/
def stepComponent (s : ComponentState) : CompOp → ComponentState
  | .fetch server => fetchReminders server s
  | .markSeen rid => markReminderAsSeen rid s
  | .dismiss rid => dismissReminder rid s

/-! ## Helper lemmas -/

/-- In `[0, a*b)` exactly `b` numbers have residue `r` mod `a`. -/
lemma countP_mod_range (a r : Nat) (h : r < a) :
    ∀ b, (List.range (a * b)).countP (fun k => decide (k % a = r)) = b := by
  intro b
  induction b with
  | zero => simp
  | succ b ih =>
    rw [Nat.mul_succ, List.range_add, List.countP_append, ih, List.countP_map]
    have h1 : (List.range a).countP ((fun k => decide (k % a = r)) ∘ (fun x => a * b + x))
        = (List.range a).countP (fun k => decide (k = r)) := by
      apply List.countP_congr
      intro x hx
      have hx' := List.mem_range.mp hx
      simp [Nat.mul_add_mod, Nat.mod_eq_of_lt hx']
    have h2 : (List.range a).countP (fun k => decide (k = r)) = List.count r (List.range a) := by
      rw [List.count_eq_countP]
      apply List.countP_congr
      intro x hx
      simp
    rw [h1, h2, List.count_eq_one_of_mem (List.nodup_range a) (List.mem_range.mpr h)]

/-- Inversion of a successful generator run. -/
lemma generateTasks_eq_ok {g : GoalIn} {ts : List Task}
    (h : generateTasks g = .ok ts) :
    0 < g.duration_weeks ∧ ∃ i, parseIntensity g.intensity = some i ∧
      ts = mkTaskList (findTemplate g.title) g.duration_weeks.toNat (tasksPerWeek i) := by
  unfold generateTasks at h
  split at h
  · exact absurd h (by simp)
  · next hw =>
    refine ⟨lt_of_not_le hw, ?_⟩
    cases hp : parseIntensity g.intensity with
    | none => rw [hp] at h; exact absurd h (by simp)
    | some i =>
      rw [hp] at h
      exact ⟨i, rfl, (Except.ok.inj h).symm⟩

/-- The length of the generated sequence. -/
lemma mkTaskList_length (tmpl : List String) (wn tpw : Nat) :
    (mkTaskList tmpl wn tpw).length = wn * tpw := by
  simp [mkTaskList]

/-- Each week `j` of a generated goal receives exactly `tpw` tasks. -/
lemma mkTaskList_week_count (tmpl : List String) (wn tpw j : Nat)
    (h1 : 1 ≤ j) (hj : j ≤ wn) :
    ((mkTaskList tmpl wn tpw).filter (fun t => t.week_number = j)).length = tpw := by
  rw [mkTaskList, List.filter_map, List.length_map, ← List.countP_eq_length_filter]
  have hc : (List.range (wn * tpw)).countP
      ((fun t : Task => decide (t.week_number = j)) ∘ mkTask tmpl wn)
      = (List.range (wn * tpw)).countP (fun k => decide (k % wn = j - 1)) := by
    apply List.countP_congr
    intro k _
    simp only [Function.comp_apply, mkTask, decide_eq_true_eq]
    omega
  rw [hc, countP_mod_range wn (j - 1) (by omega) tpw]

/-! ## Claim theorems -/

/-- C2: for every goal with positive duration `w` and a valid intensity,
the generator produces exactly `w * tasksPerWeek intensity` tasks
(Light/Normal/Aggressive mapping to 2/3/4 per week); Normal yields `3w`
tasks, and each of the weeks `1..w` receives exactly `tasksPerWeek
intensity` tasks. -/
theorem c2_generator_task_count (g : GoalIn) (i : Intensity)
    (hw : 0 < g.duration_weeks) (hi : parseIntensity g.intensity = some i) :
    ∃ ts, generateTasks g = .ok ts ∧
      ts.length = g.duration_weeks.toNat * tasksPerWeek i ∧
      (g.intensity = "Normal" → ts.length = 3 * g.duration_weeks.toNat) ∧
      (∀ j, 1 ≤ j → j ≤ g.duration_weeks.toNat →
        (ts.filter (fun t => t.week_number = j)).length = tasksPerWeek i) := by
  refine ⟨mkTaskList (findTemplate g.title) g.duration_weeks.toNat (tasksPerWeek i),
    ?_, mkTaskList_length _ _ _, ?_, ?_⟩
  · unfold generateTasks
    rw [if_neg (not_le.mpr hw), hi]
  · intro hn
    have h3 : parseIntensity "Normal" = some Intensity.Normal := rfl
    rw [hn, h3] at hi
    have h4 : Intensity.Normal = i := Option.some.inj hi
    rw [mkTaskList_length, ← h4]
    simp [tasksPerWeek, Nat.mul_comm]
  · intro j h1 hj
    exact mkTaskList_week_count _ _ _ _ h1 hj

/-- C2 witness: a goal of 2 weeks at Light intensity yields 4 tasks, 2 in
each of the weeks 1 and 2. -/
theorem c2_generator_task_count_witness :
    (0 : Int) < 2 ∧ parseIntensity "Light" = some .Light ∧
    ∃ ts, generateTasks ⟨"Quantum Basket Weaving", 2, "Light"⟩ = .ok ts ∧
      ts.length = (2 : Int).toNat * tasksPerWeek .Light ∧
      (("Light" : String) = "Normal" → ts.length = 3 * (2 : Int).toNat) ∧
      (∀ j, 1 ≤ j → j ≤ (2 : Int).toNat →
        (ts.filter (fun t => t.week_number = j)).length = tasksPerWeek .Light) :=
  ⟨by decide, rfl,
    c2_generator_task_count ⟨"Quantum Basket Weaving", 2, "Light"⟩ .Light (by decide) rfl⟩

/-- C3: for every generated goal, the task `order` values are exactly
`0, 1, 2, ...` — a strict 0-based increasing sequence with no gaps or
repeats across the whole goal — and the `k`-th task is dealt round-robin
into week `k % duration_weeks + 1`. -/
theorem c3_orders_strict_round_robin (g : GoalIn) (ts : List Task)
    (h : generateTasks g = .ok ts) :
    ts.map Task.order = List.range ts.length ∧
    (ts.map Task.order).Pairwise (· < ·) ∧
    ∀ k, (hk : k < ts.length) →
      (ts.get ⟨k, hk⟩).week_number = k % g.duration_weeks.toNat + 1 := by
  obtain ⟨hw, i, hi, hts⟩ := generateTasks_eq_ok h
  subst hts
  have hmap : (mkTaskList (findTemplate g.title) g.duration_weeks.toNat
      (tasksPerWeek i)).map Task.order
      = List.range (g.duration_weeks.toNat * tasksPerWeek i) := by
    simp [mkTaskList, List.map_map, mkTask, Function.comp_def]
  refine ⟨?_, ?_, ?_⟩
  · rw [hmap, mkTaskList_length]
  · rw [hmap]
    exact List.pairwise_lt_range _
  · intro k hk
    simp [mkTaskList, mkTask, List.get_eq_getElem]

/-- C3 witness: the one-week Light goal "Learn React" generates two tasks
with orders `[0, 1]`, both in week 1. -/
theorem c3_orders_strict_round_robin_witness :
    generateTasks ⟨"Learn React", 1, "Light"⟩ =
      .ok (mkTaskList ["JSX Syntax", "Components and Props", "State and Hooks", "Routing"] 1 2) ∧
    ((mkTaskList ["JSX Syntax", "Components and Props", "State and Hooks", "Routing"] 1 2).map
        Task.order =
      List.range (mkTaskList ["JSX Syntax", "Components and Props", "State and Hooks", "Routing"]
        1 2).length ∧
    ((mkTaskList ["JSX Syntax", "Components and Props", "State and Hooks", "Routing"] 1 2).map
        Task.order).Pairwise (· < ·) ∧
    ∀ k, (hk : k < (mkTaskList ["JSX Syntax", "Components and Props", "State and Hooks", "Routing"]
        1 2).length) →
      ((mkTaskList ["JSX Syntax", "Components and Props", "State and Hooks", "Routing"] 1
        2).get ⟨k, hk⟩).week_number = k % (1 : Int).toNat + 1) :=
  ⟨rfl, c3_orders_strict_round_robin ⟨"Learn React", 1, "Light"⟩ _ rfl⟩

/-- C6: the generator signals an error exactly when `duration_weeks ≤ 0`
or the intensity string is invalid; a title matching no topic in the
fixed topic table is not an error — generation falls back to the generic
template. -/
theorem c6_generator_error_conditions (g : GoalIn) :
    ((∃ e, generateTasks g = .error e) ↔
      (g.duration_weeks ≤ 0 ∨ parseIntensity g.intensity = none)) ∧
    (lookupTopic g.title = none →
      ∀ i, parseIntensity g.intensity = some i → 0 < g.duration_weeks →
        generateTasks g =
          .ok (mkTaskList genericTemplate g.duration_weeks.toNat (tasksPerWeek i))) := by
  constructor
  · constructor
    · rintro ⟨e, he⟩
      unfold generateTasks at he
      split at he
      · next hw => exact .inl hw
      · cases hp : parseIntensity g.intensity with
        | none => exact .inr rfl
        | some i => rw [hp] at he; exact absurd he (by simp)
    · intro hcond
      unfold generateTasks
      rcases hcond with hw | hp
      · rw [if_pos hw]
        exact ⟨_, rfl⟩
      · split
        · exact ⟨_, rfl⟩
        · rw [hp]
          exact ⟨_, rfl⟩
  · intro hlk i hi hw
    unfold generateTasks findTemplate
    rw [if_neg (not_le.mpr hw), hi, hlk]
    rfl

/-- C6 witness: a goal with an unknown topic and valid inputs generates
from the generic template with no error, and the error characterisation
holds at that input. -/
theorem c6_generator_error_conditions_witness :
    lookupTopic "Underwater Basket Weaving" = none ∧
    parseIntensity "Light" = some .Light ∧ (0 : Int) < 1 ∧
    generateTasks ⟨"Underwater Basket Weaving", 1, "Light"⟩ =
      .ok (mkTaskList genericTemplate (1 : Int).toNat (tasksPerWeek .Light)) :=
  ⟨by decide, rfl, by decide,
    (c6_generator_error_conditions ⟨"Underwater Basket Weaving", 1, "Light"⟩).2
      (by decide) .Light rfl (by decide)⟩

/-- C7: the generator is deterministic — two goals with the same title,
duration and intensity generate identical task sequences (the generator
is a pure function of those fields). -/
theorem c7_generator_deterministic (g₁ g₂ : GoalIn)
    (ht : g₁.title = g₂.title) (hd : g₁.duration_weeks = g₂.duration_weeks)
    (hi : g₁.intensity = g₂.intensity) :
    generateTasks g₁ = generateTasks g₂ := by
  cases g₁
  cases g₂
  simp_all

/-- C7 witness: two identical concrete goals generate identically. -/
theorem c7_generator_deterministic_witness :
    generateTasks ⟨"Learn Python", 2, "Normal"⟩ =
      generateTasks ⟨"Learn Python", 2, "Normal"⟩ :=
  c7_generator_deterministic ⟨"Learn Python", 2, "Normal"⟩ ⟨"Learn Python", 2, "Normal"⟩
    rfl rfl rfl

/-- C1: the lock evaluator returns locked iff some task in the effective
dependency set is not Completed; a task with an empty effective dependency
set is always unlocked; and under the implicit linear chain (no explicit
dependencies) a task is locked iff its immediate predecessor by `order`
is not Completed. -/
theorem c1_lock_evaluator (tasks : List Task) (t u : Task)
    (hnd : (tasks.map Task.order).Nodup) :
    (isLocked tasks t = true ↔
      ∃ v ∈ effectiveDeps tasks t, v.status ≠ TaskStatus.Completed) ∧
    (effectiveDeps tasks t = [] → isLocked tasks t = false) ∧
    (t.dependencies = [] → u ∈ tasks → u.order + 1 = t.order →
      (isLocked tasks t = true ↔ u.status ≠ TaskStatus.Completed)) := by
  refine ⟨?_, ?_, ?_⟩
  · simp [isLocked, List.any_eq_true]
  · intro h
    simp [isLocked, h]
  · intro hdep hu hord
    constructor
    · intro hl
      simp only [isLocked, effectiveDeps, hdep, List.isEmpty_nil, if_true,
        List.any_eq_true, List.mem_filter] at hl
      obtain ⟨v, ⟨hvt, hvo⟩, hvs⟩ := hl
      have hvu : v = u := by
        apply List.inj_on_of_nodup_map hnd hvt hu
        have : v.order + 1 = t.order := by simpa using hvo
        omega
      subst hvu
      simpa using hvs
    · intro hs
      simp only [isLocked, effectiveDeps, hdep, List.isEmpty_nil, if_true,
        List.any_eq_true, List.mem_filter]
      exact ⟨u, ⟨hu, by simpa using hord⟩, by simpa using hs⟩

/-- C1 witness: in a two-task chain with orders 0 and 1, task 1 is locked
iff task 0 is not Completed (here task 0 is NotStarted). -/
theorem c1_lock_evaluator_witness :
    isLocked
        [⟨1, "A", "", .NotStarted, 0, []⟩, ⟨1, "B", "", .NotStarted, 1, []⟩]
        ⟨1, "B", "", .NotStarted, 1, []⟩ = true ↔
      (⟨1, "A", "", .NotStarted, 0, []⟩ : Task).status ≠ TaskStatus.Completed :=
  (c1_lock_evaluator
      [⟨1, "A", "", .NotStarted, 0, []⟩, ⟨1, "B", "", .NotStarted, 1, []⟩]
      ⟨1, "B", "", .NotStarted, 1, []⟩ ⟨1, "A", "", .NotStarted, 0, []⟩
      (by decide)).2.2 rfl (by simp) rfl

/-- C4: after a successful daily check-in for a user on a day, a second
request for the same user and day fails with the already-generated
conflict and leaves the reminder count unchanged. -/
theorem c4_daily_checkin_conflict (user day : Nat) (s s' : ServerState)
    (h : dailyCheckin user day s = (.ok (), s')) :
    dailyCheckin user day s' =
      (.error "Daily check-in already generated for today", s') ∧
    (dailyCheckin user day s').2.reminders.length = s'.reminders.length := by
  unfold dailyCheckin at h
  split at h
  · exact absurd h (by simp)
  · have hs' : s' = { reminders := mkDailyCheckin user day s.nextId :: s.reminders
                      nextId := s.nextId + 1 } := by
      have h2 := congrArg Prod.snd h
      simpa using h2.symm
    subst hs'
    have hc : hasCheckinFor user day
        (mkDailyCheckin user day s.nextId :: s.reminders) = true := by
      simp [hasCheckinFor, mkDailyCheckin]
    constructor
    · simp [dailyCheckin, hc]
    · simp [dailyCheckin, hc]

/-- C4 witness: on an empty store the first check-in succeeds and the
second one conflicts without changing the single-row count. -/
theorem c4_daily_checkin_conflict_witness :
    dailyCheckin 1 5 { reminders := [mkDailyCheckin 1 5 0], nextId := 1 } =
      (.error "Daily check-in already generated for today",
        { reminders := [mkDailyCheckin 1 5 0], nextId := 1 }) ∧
    (dailyCheckin 1 5 { reminders := [mkDailyCheckin 1 5 0], nextId := 1 }).2.reminders.length =
      (ServerState.mk [mkDailyCheckin 1 5 0] 1).reminders.length :=
  c4_daily_checkin_conflict 1 5 { reminders := [], nextId := 0 }
    { reminders := [mkDailyCheckin 1 5 0], nextId := 1 } rfl

/-- C5: dismissing is idempotent — a successful dismiss always lands in
the dismissed state, a second dismiss succeeds (no error) and stays
dismissed, and the frontend removal of the dismissed reminder from the
list is also idempotent. -/
theorem c5_dismiss_idempotent (cur st : RStatus) (rid : Nat) (s : ComponentState)
    (h : updateReminderStatus cur .dismissed = .ok st) :
    st = .dismissed ∧
    updateReminderStatus st .dismissed = .ok .dismissed ∧
    dismissReminder rid (dismissReminder rid s) = dismissReminder rid s := by
  have hst : st = .dismissed := by
    cases cur
    · exact (Except.ok.inj h).symm
    · exact (Except.ok.inj h).symm
    · exact absurd h (by simp [updateReminderStatus])
    · exact (Except.ok.inj h).symm
  subst hst
  refine ⟨rfl, rfl, ?_⟩
  simp [dismissReminder, List.filter_filter]

/-- C5 witness: dismissing a pending reminder lands in dismissed, and
dismissing again raises no error and changes nothing. -/
theorem c5_dismiss_idempotent_witness :
    RStatus.dismissed = RStatus.dismissed ∧
    updateReminderStatus .dismissed .dismissed = .ok .dismissed ∧
    dismissReminder 0 (dismissReminder 0 initialComponentState) =
      dismissReminder 0 initialComponentState :=
  c5_dismiss_idempotent .pending .dismissed 0 initialComponentState rfl

/-- The allowed one-directional edges of the reminder lifecycle, with
self-loops: pending → delivered → seen, or → dismissed from either
pending or delivered. -/
def allowedStep (a b : RStatus) : Bool :=
  a == b ||
  (a == .pending && (b == .delivered || b == .seen || b == .dismissed)) ||
  (a == .delivered && (b == .seen || b == .dismissed))

/-- A terminal-status reminder is untouched by any single event. -/
lemma stepReminder_terminal (r : Reminder) (op : ROp)
    (h : r.status = .seen ∨ r.status = .dismissed) :
    (stepReminder r op).status = r.status := by
  cases op with
  | deliverFetch now =>
    rcases h with h | h <;> simp [stepReminder, h]
  | reqStatus req =>
    rcases h with h | h <;> cases req <;>
      simp [stepReminder, updateReminderStatus, h]

/-- A terminal-status reminder is untouched by any event sequence. -/
lemma foldl_stepReminder_terminal (ops : List ROp) (r : Reminder)
    (h : r.status = .seen ∨ r.status = .dismissed) :
    (ops.foldl stepReminder r).status = r.status := by
  induction ops generalizing r with
  | nil => rfl
  | cons op ops ih =>
    have h2 := stepReminder_terminal r op h
    rw [List.foldl_cons, ih (stepReminder r op) (by rw [h2]; exact h), h2]

/-- C8: every single event moves a reminder only along the allowed
one-directional edges pending → delivered → seen / dismissed (or keeps it
in place), and no sequence of events ever moves a reminder out of the
seen or dismissed state. -/
theorem c8_one_directional_lifecycle (r : Reminder) (op : ROp) (ops : List ROp) :
    allowedStep r.status (stepReminder r op).status = true ∧
    (r.status = .seen → (ops.foldl stepReminder r).status = .seen) ∧
    (r.status = .dismissed → (ops.foldl stepReminder r).status = .dismissed) := by
  refine ⟨?_, ?_, ?_⟩
  · cases op with
    | deliverFetch now =>
      by_cases hc : r.status = .pending ∧ r.scheduled_time ≤ now
      · simp [stepReminder, hc, allowedStep, hc.1]
      · simp [stepReminder, hc, allowedStep]
    | reqStatus req =>
      cases hs : r.status <;> cases req <;>
        simp [stepReminder, updateReminderStatus, allowedStep, hs]
  · intro h
    rw [foldl_stepReminder_terminal ops r (.inl h), h]
  · intro h
    rw [foldl_stepReminder_terminal ops r (.inr h), h]

/-- C8 witness: a seen reminder stays seen across a delivery attempt and
a dismissal request. -/
theorem c8_one_directional_lifecycle_witness :
    ((⟨0, 1, "goal_reminder", "T", "M", "positive", 3, .seen, 0⟩ : Reminder).status =
      RStatus.seen) ∧
    (([ROp.deliverFetch 10, ROp.reqStatus .dismissed].foldl stepReminder
      ⟨0, 1, "goal_reminder", "T", "M", "positive", 3, .seen, 0⟩).status = .seen) :=
  ⟨rfl, (c8_one_directional_lifecycle
    ⟨0, 1, "goal_reminder", "T", "M", "positive", 3, .seen, 0⟩
    (.deliverFetch 10) [ROp.deliverFetch 10, ROp.reqStatus .dismissed]).2.1 rfl⟩

/-- Week numbers generated for a `wn`-week goal lie in `1..wn`. -/
lemma mkTaskList_week_bounds (tmpl : List String) (wn tpw : Nat) (hwn : 0 < wn) :
    ∀ t ∈ mkTaskList tmpl wn tpw, 1 ≤ t.week_number ∧ t.week_number ≤ wn := by
  intro t ht
  simp only [mkTaskList, List.mem_map, List.mem_range] at ht
  obtain ⟨k, hk, rfl⟩ := ht
  refine ⟨by simp [mkTask], ?_⟩
  have := Nat.mod_lt k hwn
  simp [mkTask]
  omega

/-- A single task mutation preserves the week-number bounds. -/
lemma applyTaskOp_week_bounds (wn : Nat) (ts : List Task) (op : TaskOp)
    (h : ∀ t ∈ ts, 1 ≤ t.week_number ∧ t.week_number ≤ wn) :
    ∀ t ∈ applyTaskOp wn ts op, 1 ≤ t.week_number ∧ t.week_number ≤ wn := by
  intro t ht
  cases op with
  | edit o title descr st =>
    simp only [applyTaskOp, List.mem_map] at ht
    obtain ⟨u, hu, rfl⟩ := ht
    by_cases h' : u.order = o <;> simp [h'] <;> exact h u hu
  | reorder pairs =>
    simp only [applyTaskOp, List.mem_map] at ht
    obtain ⟨u, hu, rfl⟩ := ht
    cases hlk : pairs.lookup u.order <;> simp [hlk] <;> exact h u hu
  | moveWeek o week =>
    simp only [applyTaskOp] at ht
    split at ht
    · next hcond =>
      simp only [List.mem_map] at ht
      obtain ⟨u, hu, rfl⟩ := ht
      by_cases h' : u.order = o
      · simp [h']
        omega
      · simp [h']
        exact h u hu
    · exact h t ht
  | delete o =>
    simp only [applyTaskOp] at ht
    exact h t (List.mem_of_mem_filter ht)

/-- Any sequence of task mutations preserves the week-number bounds. -/
lemma foldl_applyTaskOp_week_bounds (wn : Nat) (ops : List TaskOp) (ts : List Task)
    (h : ∀ t ∈ ts, 1 ≤ t.week_number ∧ t.week_number ≤ wn) :
    ∀ t ∈ ops.foldl (applyTaskOp wn) ts, 1 ≤ t.week_number ∧ t.week_number ≤ wn := by
  induction ops generalizing ts with
  | nil => exact h
  | cons op ops ih =>
    rw [List.foldl_cons]
    exact ih _ (applyTaskOp_week_bounds wn ts op h)

/-- C9: in every state reachable from generation by any sequence of task
edits, reorders, week moves and deletes, every task's week number lies
between 1 and the goal's duration in weeks. -/
theorem c9_week_number_invariant (g : GoalIn) (ts : List Task) (ops : List TaskOp)
    (h : generateTasks g = .ok ts) :
    ∀ t ∈ ops.foldl (applyTaskOp g.duration_weeks.toNat) ts,
      1 ≤ t.week_number ∧ t.week_number ≤ g.duration_weeks.toNat := by
  obtain ⟨hw, i, hi, rfl⟩ := generateTasks_eq_ok h
  exact foldl_applyTaskOp_week_bounds _ _ _
    (mkTaskList_week_bounds _ _ _ (by omega))

/-- C9 witness: after moving a task and deleting another in a generated
two-week goal, the surviving task's week number is still within 1..2. -/
theorem c9_week_number_invariant_witness :
    1 ≤ (Task.mk 2 "JSX Syntax" "Work on JSX Syntax" .NotStarted 0 []).week_number ∧
    (Task.mk 2 "JSX Syntax" "Work on JSX Syntax" .NotStarted 0 []).week_number ≤
      (2 : Int).toNat :=
  c9_week_number_invariant ⟨"Learn React", 2, "Light"⟩
    (mkTaskList ["JSX Syntax", "Components and Props", "State and Hooks", "Routing"] 2 2)
    [.moveWeek 0 2, .delete 1] rfl
    (Task.mk 2 "JSX Syntax" "Work on JSX Syntax" .NotStarted 0 []) (by decide)

/-- A single component operation preserves the active-only invariant of
the reminders list. -/
lemma stepComponent_active (s : ComponentState) (op : CompOp)
    (h : ∀ r ∈ s.reminders, r.status = .pending ∨ r.status = .delivered) :
    ∀ r ∈ (stepComponent s op).reminders,
      r.status = .pending ∨ r.status = .delivered := by
  cases op with
  | fetch server =>
    intro r hr
    simp only [stepComponent, fetchReminders, activeFilter, List.mem_filter,
      decide_eq_true_eq] at hr
    simpa using hr.2
  | markSeen rid =>
    intro r hr
    exact h r (List.mem_of_mem_filter hr)
  | dismiss rid =>
    intro r hr
    exact h r (List.mem_of_mem_filter hr)

/-- C10: starting from the initial component state, after any sequence of
fetches, mark-seen and dismiss operations the reminders list holds only
pending or delivered reminders. -/
theorem c10_component_active_invariant (ops : List CompOp) :
    ∀ r ∈ (ops.foldl stepComponent initialComponentState).reminders,
      r.status = .pending ∨ r.status = .delivered := by
  suffices hgen : ∀ s, (∀ r ∈ s.reminders, r.status = .pending ∨ r.status = .delivered) →
      ∀ r ∈ (ops.foldl stepComponent s).reminders,
        r.status = .pending ∨ r.status = .delivered by
    exact hgen initialComponentState (by simp [initialComponentState])
  induction ops with
  | nil => exact fun s hs => hs
  | cons op ops ih =>
    intro s hs
    rw [List.foldl_cons]
    exact ih _ (stepComponent_active s op hs)

/-- C10 witness: after fetching a server list containing one pending and
one dismissed reminder, the pending one in the component list satisfies
the invariant (the dismissed one was filtered out). -/
theorem c10_component_active_invariant_witness :
    (⟨0, 1, "daily_checkin", "T", "M", "positive", 3, .pending, 0⟩ : Reminder).status =
      RStatus.pending ∨
    (⟨0, 1, "daily_checkin", "T", "M", "positive", 3, .pending, 0⟩ : Reminder).status =
      RStatus.delivered :=
  c10_component_active_invariant
    [.fetch [⟨0, 1, "daily_checkin", "T", "M", "positive", 3, .pending, 0⟩,
             ⟨1, 1, "daily_checkin", "T", "M", "positive", 3, .dismissed, 0⟩]]
    ⟨0, 1, "daily_checkin", "T", "M", "positive", 3, .pending, 0⟩ (by decide)

end Companio
